import Mathlib

/-!
Verification of the gfx_display layer (src/gfx/gfx_display.h).

The repository ships only the header: the macros (DIAGONAL_PIXELS_1080P,
COLOR_TEXT_ALPHA, HEX_R/G/B, COLOR_HEX_TO_FLOAT, gfx_display_set_alpha,
GFX_DISPLAY_GET_UPDATE_PENDING), the enums, and the struct layouts are in
the source; the bodies of the declared functions (driver binding, the
primitive library, the transform/scale math) are not.  Macros and structs
are embedded directly from the source; function bodies are modelled from
the spec, each marked `Modelled from the spec:` in its doc comment.

Numeric conventions of the embedding: C `unsigned`/`size_t` become `Nat`
(with explicit `% 2^32` masks or bounds where overflow matters), C `int`
becomes `Int`, and C `float`/`double` become exact arithmetic (`ℚ` for
the color helpers, `ℝ` for the square-root based scale math), so every
stated equality is exact rather than up to rounding.
-/

namespace GfxDisplay

/-- enum menu_driver_id_type (source lines 69-78). -/
inductive menu_driver_id_type where
  | MENU_DRIVER_ID_UNKNOWN
  | MENU_DRIVER_ID_RGUI
  | MENU_DRIVER_ID_OZONE
  | MENU_DRIVER_ID_GLUI
  | MENU_DRIVER_ID_XMB
  | MENU_DRIVER_ID_XUI
  | MENU_DRIVER_ID_STRIPES
  deriving DecidableEq, Repr

/-- enum gfx_display_prim_type (source lines 81-86). -/
inductive gfx_display_prim_type where
  | GFX_DISPLAY_PRIM_NONE
  | GFX_DISPLAY_PRIM_TRIANGLESTRIP
  | GFX_DISPLAY_PRIM_TRIANGLES
  deriving DecidableEq, Repr

/-- enum gfx_display_driver_type (source lines 88-106). -/
inductive gfx_display_driver_type where
  | GFX_VIDEO_DRIVER_GENERIC
  | GFX_VIDEO_DRIVER_OPENGL
  | GFX_VIDEO_DRIVER_OPENGL1
  | GFX_VIDEO_DRIVER_OPENGL_CORE
  | GFX_VIDEO_DRIVER_VULKAN
  | GFX_VIDEO_DRIVER_METAL
  | GFX_VIDEO_DRIVER_DIRECT3D8
  | GFX_VIDEO_DRIVER_DIRECT3D9
  | GFX_VIDEO_DRIVER_DIRECT3D10
  | GFX_VIDEO_DRIVER_DIRECT3D11
  | GFX_VIDEO_DRIVER_DIRECT3D12
  | GFX_VIDEO_DRIVER_VITA2D
  | GFX_VIDEO_DRIVER_CTR
  | GFX_VIDEO_DRIVER_WIIU
  | GFX_VIDEO_DRIVER_GDI
  | GFX_VIDEO_DRIVER_SWITCH
  deriving DecidableEq, Repr

/-- struct gfx_display_ctx_driver (source lines 117-150): the static
identity/capability data of a backend.  The function-pointer slots of the
C struct (draw, blend, scissor, font init, ...) are external backend code
with no body in this repository; the primitive operations below model a
dispatch to the bound driver's `draw` slot by returning the list of
descriptors handed to it, so the pointers themselves carry no information
here and only the data fields are kept. -/
structure gfx_display_ctx_driver where
  type : gfx_display_driver_type
  ident : String
  handles_transform : Bool
  deriving DecidableEq, Repr

/-- struct gfx_display_ctx_draw (source lines 152-172), the backend-neutral
DrawDescriptor.  Floats become `ℚ`; the opaque pointers (backend_data,
coords, matrix_data) and the texture handle become `Nat` handles
(0 = NULL); the nullable vertex/tex_coord/color array pointers become
`Option (List ℚ)` / a 16-slot color array. -/
structure gfx_display_ctx_draw where
  color : List ℚ
  vertex : Option (List ℚ)
  tex_coord : Option (List ℚ)
  backend_data : Nat
  coords : Nat
  matrix_data : Nat
  texture : Nat
  vertex_count : Nat
  backend_data_size : Nat
  width : Nat
  height : Nat
  pipeline_id : Nat
  x : ℚ
  y : ℚ
  rotation : ℚ
  scale_factor : ℚ
  prim_type : gfx_display_prim_type
  pipeline_active : Bool
  deriving DecidableEq

/-- struct gfx_display (source lines 206-224): the DisplayState.  The
bound driver pointer `dispctx` becomes an `Option`; the accumulated
coordinate array `dispca` becomes a list of floats. -/
structure gfx_display where
  dispctx : Option gfx_display_ctx_driver
  dispca : List ℚ
  framebuf_pitch : Nat
  framebuf_width : Nat
  framebuf_height : Nat
  header_height : Nat
  menu_driver_id : menu_driver_id_type
  has_windowed : Bool
  msg_force : Bool
  framebuf_dirty : Bool
  deriving DecidableEq

/-- Modelled from the spec: the animation subsystem is out of scope and this
layer "only consumes an animation-active signal"; the macro
ANIM_IS_ACTIVE lives in the animation header, not in this repository.
The animation state is reduced to the one signal the gate reads. -/
structure gfx_animation where
  animation_is_active : Bool
  deriving DecidableEq

/-- Modelled from the spec: ANIM_IS_ACTIVE reports whether the animation
subsystem has at least one active animation. -/
def ANIM_IS_ACTIVE (p_anim : gfx_animation) : Bool :=
  p_anim.animation_is_active

/-- GFX_DISPLAY_GET_UPDATE_PENDING (source line 67):
`(ANIM_IS_ACTIVE(p_anim) || p_disp->framebuf_dirty)`. -/
def GFX_DISPLAY_GET_UPDATE_PENDING (p_anim : gfx_animation)
    (p_disp : gfx_display) : Bool :=
  ANIM_IS_ACTIVE p_anim || p_disp.framebuf_dirty

/-- Evaluating the gate as the render loop does: the macro is a pure
boolean expression over two reads (`ANIM_IS_ACTIVE(p_anim)` and
`p_disp->framebuf_dirty`), with no assignment anywhere in its expansion,
so its state-transformer form returns the DisplayState it was given. -/
def gfx_display_get_update_pending_run (p_anim : gfx_animation)
    (p_disp : gfx_display) : Bool × gfx_display :=
  (GFX_DISPLAY_GET_UPDATE_PENDING p_anim p_disp, p_disp)

/-- COLOR_TEXT_ALPHA (source line 44): `(color & 0xFFFFFF00) | alpha`. -/
def COLOR_TEXT_ALPHA (color alpha : Nat) : Nat :=
  (color &&& 0xFFFFFF00) ||| alpha

/-- HEX_R (source line 46): `((hex >> 16) & 0xFF) * (1.0f / 255.0f)`. -/
def HEX_R (hex : Nat) : ℚ := (((hex >>> 16) &&& 0xFF : Nat) : ℚ) * (1 / 255)

/-- HEX_G (source line 47): `((hex >> 8) & 0xFF) * (1.0f / 255.0f)`. -/
def HEX_G (hex : Nat) : ℚ := (((hex >>> 8) &&& 0xFF : Nat) : ℚ) * (1 / 255)

/-- HEX_B (source line 48): `((hex >> 0) & 0xFF) * (1.0f / 255.0f)`. -/
def HEX_B (hex : Nat) : ℚ := (((hex >>> 0) &&& 0xFF : Nat) : ℚ) * (1 / 255)

/-- COLOR_HEX_TO_FLOAT (source lines 50-55): the 16-float initializer
`{ R,G,B,alpha, R,G,B,alpha, R,G,B,alpha, R,G,B,alpha }`, one RGBA
quadruple per corner, as a 16-element array. -/
def COLOR_HEX_TO_FLOAT (hex : Nat) (alpha : ℚ) : List ℚ :=
  [HEX_R hex, HEX_G hex, HEX_B hex, alpha,
   HEX_R hex, HEX_G hex, HEX_B hex, alpha,
   HEX_R hex, HEX_G hex, HEX_B hex, alpha,
   HEX_R hex, HEX_G hex, HEX_B hex, alpha]

/-- gfx_display_set_alpha (source line 57):
`color[3] = color[7] = color[11] = color[15] = alpha_value`, as a pure
update of the four alpha slots. -/
def gfx_display_set_alpha (color : List ℚ) (alpha_value : ℚ) : List ℚ :=
  ((((color.set 3 alpha_value).set 7 alpha_value).set 11 alpha_value).set
    15 alpha_value)

/-- One step of the driver-selection loop over the remaining registry
entries.  Modelled from the spec: `init_first_driver` "iterates the list
in a fixed priority order, invoking each candidate's own backend-specific
probe (external, backend-owned) until one initializes successfully; binds
it into DisplayState and returns success/failure" (the function body is
not in this repository, only its declaration at source lines 268-269).
The external probe is a parameter. -/
def gfx_display_init_first_driver_loop
    (probe : gfx_display_ctx_driver → Bool) :
    List gfx_display_ctx_driver → gfx_display → Bool × gfx_display
  | [], p_disp => (false, p_disp)
  | d :: rest, p_disp =>
      if probe d then (true, { p_disp with dispctx := some d })
      else gfx_display_init_first_driver_loop probe rest p_disp

/-- Modelled from the spec: gfx_display_init_first_driver (declaration at
source lines 268-269).  "Only one driver may be bound at a time;
re-initialization first unbinds the previous one", then the registry list
is walked in priority order; "failure to bind any driver is fatal to the
rendering subsystem (propagated to the caller, not silently defaulted)".
`drivers` is the compile-time registry list and `probe` each backend's
external availability probe, which may consult the threaded hint. -/
def gfx_display_init_first_driver
    (drivers : List gfx_display_ctx_driver)
    (probe : gfx_display_ctx_driver → Bool → Bool)
    (p_disp : gfx_display) (video_is_threaded : Bool) :
    Bool × gfx_display :=
  gfx_display_init_first_driver_loop (fun d => probe d video_is_threaded)
    drivers { p_disp with dispctx := none }

/-- Modelled from the spec: gfx_display_draw_quad (declaration at source
lines 289-296).  Per the primitive-operation shape of the spec: validate
geometry (zero-size rectangles are silently skipped); if no driver is
bound the operation is a no-op; otherwise build one DrawDescriptor for
the rectangle (a 4-vertex triangle strip, the quad topology) and dispatch
it to the bound driver's draw slot.  The returned list is the sequence of
descriptors handed to the driver. -/
def gfx_display_draw_quad
    (p_disp : gfx_display) (data : Nat)
    (video_width video_height : Nat)
    (x y : Int) (w h : Nat) (width height : Nat)
    (color : List ℚ) : List gfx_display_ctx_draw :=
  if w = 0 ∨ h = 0 then []
  else
    match p_disp.dispctx with
    | none => []
    | some _ =>
        [{ color := color
           vertex := none
           tex_coord := none
           backend_data := 0
           coords := 0
           matrix_data := 0
           texture := 0
           vertex_count := 4
           backend_data_size := 0
           width := width
           height := height
           pipeline_id := 0
           x := (x : ℚ)
           y := (y : ℚ)
           rotation := 0
           scale_factor := 1
           prim_type := .GFX_DISPLAY_PRIM_TRIANGLESTRIP
           pipeline_active := false }]

/-- Corner coordinates of one slice region as a vertex list
(two triangles of a strip: the four corners of the region rectangle). -/
def slice_region_verts (x0 y0 x1 y1 : ℚ) : List ℚ :=
  [x0, y0, x1, y0, x0, y1, x1, y1]

/-- Modelled from the spec: gfx_display_draw_texture_slice (declaration at
source lines 310-318).  Degenerate geometry is silently skipped and a
missing binding makes the operation a no-op; otherwise the target
rectangle (size new_w x new_h at x,y) is decomposed 9-slice style: a
border of size `offset * scale_factor` is kept unstretched (four corner
regions and four edge regions) around a stretched interior, and one
4-vertex strip descriptor per region is dispatched to the bound driver. -/
def gfx_display_draw_texture_slice
    (p_disp : gfx_display) (userdata : Nat)
    (video_width video_height : Nat)
    (x y : Int) (w h : Nat) (new_w : Nat) (new_h : Nat)
    (width height : Nat) (color : List ℚ)
    (offset : Nat) (scale_factor : ℚ) (texture : Nat) :
    List gfx_display_ctx_draw :=
  if w = 0 ∨ h = 0 then []
  else
    match p_disp.dispctx with
    | none => []
    | some _ =>
        let so : ℚ := (offset : ℚ) * scale_factor
        let cols : List (ℚ × ℚ) :=
          [((x : ℚ), so),
           ((x : ℚ) + so, (new_w : ℚ) - 2 * so),
           ((x : ℚ) + (new_w : ℚ) - so, so)]
        let rows : List (ℚ × ℚ) :=
          [((y : ℚ), so),
           ((y : ℚ) + so, (new_h : ℚ) - 2 * so),
           ((y : ℚ) + (new_h : ℚ) - so, so)]
        cols.flatMap fun c =>
          rows.map fun r =>
            { color := color
              vertex := some (slice_region_verts c.1 r.1 (c.1 + c.2) (r.1 + r.2))
              tex_coord := none
              backend_data := 0
              coords := 0
              matrix_data := 0
              texture := texture
              vertex_count := 4
              backend_data_size := 0
              width := width
              height := height
              pipeline_id := 0
              x := c.1
              y := r.1
              rotation := 0
              scale_factor := scale_factor
              prim_type := .GFX_DISPLAY_PRIM_TRIANGLESTRIP
              pipeline_active := false }

/-- struct gfx_display_ctx_rotate_draw (source lines 174-182): the
RotateDescriptor.  The `matrix` field is the caller-owned slot's prior
contents (the C struct holds a pointer to it); rotation and the scale
factors are floats, embedded as reals. -/
structure gfx_display_ctx_rotate_draw where
  matrix : Matrix (Fin 4) (Fin 4) ℝ
  rotation : ℝ
  scale_x : ℝ
  scale_y : ℝ
  scale_z : ℝ
  scale_enable : Bool

/-- Modelled from the spec: the Z-axis rotation matrix used by rotate_z
("only Z-axis rotation is supported (2D UI plane)"); the matrix helper
itself lives in an external math header, not in this repository. -/
noncomputable def matrix_4x4_rotate_z (theta : ℝ) : Matrix (Fin 4) (Fin 4) ℝ :=
  Matrix.of
    ![![Real.cos theta, -Real.sin theta, 0, 0],
      ![Real.sin theta, Real.cos theta, 0, 0],
      ![0, 0, 1, 0],
      ![0, 0, 0, 1]]

/-- Modelled from the spec: the non-uniform scale matrix with independent
x/y/z factors used by rotate_z when its "apply scale" flag is set. -/
def matrix_4x4_scale (sx sy sz : ℝ) : Matrix (Fin 4) (Fin 4) ℝ :=
  Matrix.of
    ![![sx, 0, 0, 0],
      ![0, sy, 0, 0],
      ![0, 0, sz, 0],
      ![0, 0, 0, 1]]

/-- Modelled from the spec: gfx_display_rotate_z (declaration at source
lines 320-321).  "Given a rotation angle and optional non-uniform scale
factors, produces a composed rotation-then-scale 4x4 matrix, written into
the caller-owned matrix slot, replacing its prior contents."  The rotation
is composed with the bound driver's default Model-View-Projection matrix
(`default_mvp`, what dispctx->get_default_mvp(data) returns); the result
is the slot's new contents, independent of `draw.matrix`, its prior
contents. -/
noncomputable def gfx_display_rotate_z
    (draw : gfx_display_ctx_rotate_draw)
    (default_mvp : Matrix (Fin 4) (Fin 4) ℝ) : Matrix (Fin 4) (Fin 4) ℝ :=
  let rotated := matrix_4x4_rotate_z draw.rotation * default_mvp
  if draw.scale_enable then
    matrix_4x4_scale draw.scale_x draw.scale_y draw.scale_z * rotated
  else rotated

/-- DIAGONAL_PIXELS_1080P (source line 42).  The source defines the
constant by the 20-decimal literal 2202.90717008229831581901, which its
own comment (lines 38-41) derives as `sqrt((1920 * 1920) + (1080 * 1080))`,
the corner-to-corner pixel count of a 1080p display; the embedding uses
that exact square root, and `DIAGONAL_PIXELS_1080P_matches_literal` below
proves the printed literal is its correctly rounded 20-decimal value. -/
noncomputable def DIAGONAL_PIXELS_1080P : ℝ := Real.sqrt (1920 ^ 2 + 1080 ^ 2)

/-- Modelled from the spec: gfx_display_get_dpi_scale_internal
(declaration at source line 339).  "Compute the display's diagonal pixel
count via Pythagorean combination of width and height; divide by a fixed
reference diagonal corresponding to a canonical 1080p display." -/
noncomputable def gfx_display_get_dpi_scale_internal (width height : Nat) : ℝ :=
  Real.sqrt ((width : ℝ) ^ 2 + (height : ℝ) ^ 2) / DIAGONAL_PIXELS_1080P

/-- Modelled from the spec: gfx_display_get_adjusted_scale (declaration at
source lines 335-337).  "Multiplies a base scale by a caller-supplied
scale factor and by the DPI scale, then optionally clamps ... the exact
clamp bounds are a policy choice left to the implementer."  This model
takes the identity clamp policy (no clamp); the DPI scale comes from the
DisplayState's framebuffer dimensions, and `width`, the parameter the
declaration reserves for the clamp policy, is unused under that policy. -/
noncomputable def gfx_display_get_adjusted_scale
    (p_disp : gfx_display) (base_scale scale_factor : ℝ) (width : Nat) : ℝ :=
  base_scale * scale_factor *
    gfx_display_get_dpi_scale_internal p_disp.framebuf_width p_disp.framebuf_height

/-- A DrawDescriptor's vertex count agrees with its primitive-topology
tag: 4 vertices for a triangle strip, 6 for a triangle list. -/
def vertex_count_consistent (d : gfx_display_ctx_draw) : Prop :=
  (d.prim_type = .GFX_DISPLAY_PRIM_TRIANGLESTRIP → d.vertex_count = 4) ∧
  (d.prim_type = .GFX_DISPLAY_PRIM_TRIANGLES → d.vertex_count = 6)

instance (d : gfx_display_ctx_draw) : Decidable (vertex_count_consistent d) := by
  unfold vertex_count_consistent; infer_instance

/-- The OpenGL registry entry (extern gfx_display_ctx_gl, source line 355);
its ident/capability data lives in the backend, outside this repository,
so representative values are used.  Serves as a concrete driver for
witnesses. -/
def gfx_display_ctx_gl : gfx_display_ctx_driver :=
  { type := .GFX_VIDEO_DRIVER_OPENGL, ident := "gl", handles_transform := false }

/-- The Vulkan registry entry (extern gfx_display_ctx_vulkan, source
line 358), with representative data as for the OpenGL entry. -/
def gfx_display_ctx_vulkan : gfx_display_ctx_driver :=
  { type := .GFX_VIDEO_DRIVER_VULKAN, ident := "vulkan", handles_transform := false }

/-- A concrete DisplayState with a driver already bound, used as the
witnesses' input state. -/
def test_display : gfx_display :=
  { dispctx := some gfx_display_ctx_gl
    dispca := []
    framebuf_pitch := 7680
    framebuf_width := 1920
    framebuf_height := 1080
    header_height := 64
    menu_driver_id := .MENU_DRIVER_ID_XMB
    has_windowed := true
    msg_force := false
    framebuf_dirty := false }

/-! ## Helper lemmas -/

/-- If every driver in the remaining registry list fails its probe, the
selection loop reports failure and leaves the state untouched. -/
theorem init_first_driver_loop_all_fail
    (probe : gfx_display_ctx_driver → Bool)
    (l : List gfx_display_ctx_driver) (p_disp : gfx_display)
    (h : ∀ d ∈ l, probe d = false) :
    gfx_display_init_first_driver_loop probe l p_disp = (false, p_disp) := by
  induction l with
  | nil => rfl
  | cons d rest ih =>
      have hd : probe d = false := h d (List.mem_cons_self d rest)
      rw [gfx_display_init_first_driver_loop, hd]
      simp only [Bool.false_eq_true, if_false]
      exact ih fun e he => h e (List.mem_cons_of_mem d he)

/-- Bitwise or distributes over truncation to the low n bits. -/
theorem or_mod_two_pow (m a n : ℕ) : (m ||| a) % 2 ^ n = m % 2 ^ n ||| a % 2 ^ n := by
  apply Nat.eq_of_testBit_eq
  intro i
  simp [Nat.testBit_mod_two_pow, Nat.testBit_or, Bool.and_or_distrib_left]

/-- Bitwise or distributes over right shift. -/
theorem or_shiftRight (m a k : ℕ) : (m ||| a) >>> k = m >>> k ||| a >>> k := by
  apply Nat.eq_of_testBit_eq
  intro i
  simp [Nat.testBit_shiftRight, Nat.testBit_or]

/-- Masking with 0xFFFFFF00 keeps bits 8..31 and clears the rest. -/
theorem land_FFFFFF00 (c : ℕ) : c &&& 0xFFFFFF00 = c % 2 ^ 32 / 2 ^ 8 * 2 ^ 8 := by
  apply Nat.eq_of_testBit_eq
  intro i
  have hmask : (0xFFFFFF00 : ℕ) = (2 ^ 24 - 1) <<< 8 := by
    rw [Nat.shiftLeft_eq]; norm_num
  rw [hmask, ← Nat.shiftLeft_eq, ← Nat.shiftRight_eq_div_pow,
    Nat.testBit_and, Nat.testBit_shiftLeft, Nat.testBit_shiftLeft,
    Nat.testBit_shiftRight, Nat.testBit_two_pow_sub_one, Nat.testBit_mod_two_pow]
  rcases Nat.lt_or_ge i 8 with h8 | h8
  · simp [show ¬ (i ≥ 8) by omega]
  · have h : 8 + (i - 8) = i := by omega
    rw [h]
    by_cases h32 : i < 32
    · simp [show i ≥ 8 by omega, show i - 8 < 24 by omega, h32, Bool.and_comm]
    · simp [show ¬ (i - 8 < 24) by omega, show ¬ (i < 32) by omega]

/-- The reference diagonal is the source literal to within 10^-20: the
20-decimal literal at source line 42 is the correctly rounded decimal
value of sqrt(1920^2 + 1080^2). -/
theorem DIAGONAL_PIXELS_1080P_matches_literal :
    (2202.90717008229831581900 : ℝ) < DIAGONAL_PIXELS_1080P ∧
    DIAGONAL_PIXELS_1080P < 2202.90717008229831581901 := by
  rw [DIAGONAL_PIXELS_1080P]
  constructor
  · rw [show ((1920 : ℝ) ^ 2 + 1080 ^ 2) = 4852800 by norm_num]
    rw [Real.lt_sqrt (by norm_num)]
    norm_num
  · rw [show ((1920 : ℝ) ^ 2 + 1080 ^ 2) = 4852800 by norm_num]
    rw [Real.sqrt_lt' (by norm_num)]
    norm_num

/-- The DPI scale of the canonical 1080p resolution is exactly 1. -/
theorem dpi_scale_internal_1920_1080 :
    gfx_display_get_dpi_scale_internal 1920 1080 = 1 := by
  rw [gfx_display_get_dpi_scale_internal, DIAGONAL_PIXELS_1080P]
  push_cast
  exact div_self (ne_of_gt (Real.sqrt_pos.mpr (by norm_num)))

/-- The z-rotation matrix at angle 0 is the identity. -/
theorem matrix_4x4_rotate_z_zero : matrix_4x4_rotate_z 0 = 1 := by
  unfold matrix_4x4_rotate_z
  ext i j
  fin_cases i <;> fin_cases j <;>
    simp [Matrix.one_apply, Real.cos_zero, Real.sin_zero,
      Matrix.vecHead, Matrix.vecTail]

/-! ## Claim theorems -/

/-- C1: for every animation state and every DisplayState, the
Update-Pending Gate returns true iff the animation subsystem reports an
active animation or the DisplayState's dirty flag is set, and false
exactly when both are false. -/
theorem C1_update_pending_gate_iff (p_anim : gfx_animation) (p_disp : gfx_display) :
    (GFX_DISPLAY_GET_UPDATE_PENDING p_anim p_disp = true ↔
      (ANIM_IS_ACTIVE p_anim = true ∨ p_disp.framebuf_dirty = true)) ∧
    (GFX_DISPLAY_GET_UPDATE_PENDING p_anim p_disp = false ↔
      (ANIM_IS_ACTIVE p_anim = false ∧ p_disp.framebuf_dirty = false)) := by
  cases h1 : ANIM_IS_ACTIVE p_anim <;>
    cases h2 : p_disp.framebuf_dirty <;>
      simp [GFX_DISPLAY_GET_UPDATE_PENDING, h1, h2]

/-- C9: evaluating the Update-Pending Gate leaves the DisplayState
unchanged; in particular the dirty flag is never cleared by the gate. -/
theorem C9_update_pending_gate_preserves_state
    (p_anim : gfx_animation) (p_disp : gfx_display) :
    (gfx_display_get_update_pending_run p_anim p_disp).2 = p_disp ∧
    (gfx_display_get_update_pending_run p_anim p_disp).2.framebuf_dirty
      = p_disp.framebuf_dirty :=
  ⟨rfl, rfl⟩

/-- C10: for every 32-bit color and alpha at most 0xFF, COLOR_TEXT_ALPHA
yields a 32-bit value whose upper 24 bits are the upper 24 bits of the
color and whose low 8 bits are the alpha. -/
theorem C10_color_text_alpha (c a : ℕ) (hc : c < 2 ^ 32) (ha : a ≤ 0xFF) :
    COLOR_TEXT_ALPHA c a < 2 ^ 32 ∧
    COLOR_TEXT_ALPHA c a / 2 ^ 8 = c / 2 ^ 8 ∧
    COLOR_TEXT_ALPHA c a % 2 ^ 8 = a := by
  have hm : c &&& 0xFFFFFF00 = c % 2 ^ 32 / 2 ^ 8 * 2 ^ 8 := land_FFFFFF00 c
  have hcm : c % 2 ^ 32 = c := Nat.mod_eq_of_lt hc
  rw [hcm] at hm
  refine ⟨?_, ?_, ?_⟩
  · exact Nat.or_lt_two_pow (by rw [hm]; omega) (by omega)
  · rw [← Nat.shiftRight_eq_div_pow (COLOR_TEXT_ALPHA c a) 8, COLOR_TEXT_ALPHA,
      or_shiftRight, hm, Nat.shiftRight_eq_div_pow, Nat.shiftRight_eq_div_pow,
      Nat.mul_div_cancel _ (by norm_num),
      Nat.div_eq_of_lt (show a < 2 ^ 8 by omega), Nat.or_zero]
  · rw [COLOR_TEXT_ALPHA, or_mod_two_pow, hm, Nat.mul_mod_left,
      Nat.mod_eq_of_lt (by omega), Nat.zero_or]

/-- C2: converting a hex color and then replacing the alpha yields four
per-corner RGBA quadruples whose channels 0-2 are exactly channel/255
(R from bits 16-23, G from bits 8-15, B from bits 0-7) and whose
channel 3 is the supplied alpha, identically in all four corners;
`a0`, the alpha supplied at conversion time, is overwritten. -/
theorem C2_hex_to_float_set_alpha (hex : ℕ) (a0 a : ℚ) :
    gfx_display_set_alpha (COLOR_HEX_TO_FLOAT hex a0) a =
      [(((hex >>> 16) &&& 0xFF : ℕ) : ℚ) / 255,
       (((hex >>> 8) &&& 0xFF : ℕ) : ℚ) / 255,
       (((hex &&& 0xFF : ℕ)) : ℚ) / 255, a,
       (((hex >>> 16) &&& 0xFF : ℕ) : ℚ) / 255,
       (((hex >>> 8) &&& 0xFF : ℕ) : ℚ) / 255,
       (((hex &&& 0xFF : ℕ)) : ℚ) / 255, a,
       (((hex >>> 16) &&& 0xFF : ℕ) : ℚ) / 255,
       (((hex >>> 8) &&& 0xFF : ℕ) : ℚ) / 255,
       (((hex &&& 0xFF : ℕ)) : ℚ) / 255, a,
       (((hex >>> 16) &&& 0xFF : ℕ) : ℚ) / 255,
       (((hex >>> 8) &&& 0xFF : ℕ) : ℚ) / 255,
       (((hex &&& 0xFF : ℕ)) : ℚ) / 255, a] := by
  simp [gfx_display_set_alpha, COLOR_HEX_TO_FLOAT, HEX_R, HEX_G, HEX_B,
    mul_one_div, div_eq_mul_inv]

/-- C3: when no driver in the registry passes its probe,
init_first_driver returns failure, and the resulting DisplayState has no
bound driver; every other field is exactly as before (the prior binding
is cleared, nothing is left half-updated). -/
theorem C3_init_first_driver_failure_unbinds
    (drivers : List gfx_display_ctx_driver)
    (probe : gfx_display_ctx_driver → Bool → Bool)
    (p_disp : gfx_display) (video_is_threaded : Bool)
    (hnone : ∀ d ∈ drivers, probe d video_is_threaded = false) :
    (gfx_display_init_first_driver drivers probe p_disp video_is_threaded).1
      = false ∧
    (gfx_display_init_first_driver drivers probe p_disp video_is_threaded).2
      = { p_disp with dispctx := none } := by
  rw [gfx_display_init_first_driver,
    init_first_driver_loop_all_fail _ _ _ hnone]
  exact ⟨rfl, rfl⟩

/-- C3 witness: a two-entry registry whose probes both fail, starting
from a state with the OpenGL driver bound. -/
theorem C3_init_first_driver_failure_unbinds_witness :
    (∀ d ∈ [gfx_display_ctx_gl, gfx_display_ctx_vulkan],
      (fun _ _ => false : gfx_display_ctx_driver → Bool → Bool) d true
        = false) ∧
    ((gfx_display_init_first_driver [gfx_display_ctx_gl, gfx_display_ctx_vulkan]
        (fun _ _ => false) test_display true).1 = false ∧
      (gfx_display_init_first_driver [gfx_display_ctx_gl, gfx_display_ctx_vulkan]
        (fun _ _ => false) test_display true).2
        = { test_display with dispctx := none }) :=
  ⟨fun _ _ => rfl,
    C3_init_first_driver_failure_unbinds
      [gfx_display_ctx_gl, gfx_display_ctx_vulkan]
      (fun _ _ => false) test_display true (fun _ _ => rfl)⟩

/-- C4: on a non-degenerate rectangle with a driver bound, draw_quad
dispatches exactly one DrawDescriptor, and its vertex count agrees with
its topology tag (4 for a strip, 6 for a triangle list). -/
theorem C4_draw_quad_one_consistent_descriptor
    (p_disp : gfx_display) (drv : gfx_display_ctx_driver)
    (data video_width video_height : Nat) (x y : Int)
    (w h width height : Nat) (color : List ℚ)
    (hbound : p_disp.dispctx = some drv) (hw : 0 < w) (hh : 0 < h) :
    (gfx_display_draw_quad p_disp data video_width video_height
        x y w h width height color).length = 1 ∧
    ∀ d ∈ gfx_display_draw_quad p_disp data video_width video_height
        x y w h width height color, vertex_count_consistent d := by
  rw [gfx_display_draw_quad, if_neg (by omega), hbound]
  refine ⟨rfl, ?_⟩
  intro d hd
  rw [List.mem_singleton] at hd
  subst hd
  exact ⟨fun _ => rfl, fun hp => by simp at hp⟩

/-- C4 witness: a 1x1 rectangle drawn on the bound test display. -/
theorem C4_draw_quad_one_consistent_descriptor_witness :
    test_display.dispctx = some gfx_display_ctx_gl ∧ 0 < 1 ∧
    ((gfx_display_draw_quad test_display 0 1920 1080
        5 5 1 1 1920 1080 []).length = 1 ∧
      ∀ d ∈ gfx_display_draw_quad test_display 0 1920 1080
        5 5 1 1 1920 1080 [], vertex_count_consistent d) :=
  ⟨rfl, Nat.one_pos,
    C4_draw_quad_one_consistent_descriptor test_display gfx_display_ctx_gl
      0 1920 1080 5 5 1 1 1920 1080 [] rfl Nat.one_pos Nat.one_pos⟩

/-- C5: a zero-size rectangle makes both draw_quad and
draw_texture_slice dispatch nothing to the bound driver: the draw is
silently skipped and the operation returns normally. -/
theorem C5_degenerate_geometry_skipped
    (p_disp : gfx_display) (data video_width video_height : Nat)
    (x y : Int) (w h width height : Nat) (color : List ℚ)
    (new_w new_h offset : Nat) (scale_factor : ℚ) (texture : Nat)
    (hdeg : w = 0 ∨ h = 0) :
    gfx_display_draw_quad p_disp data video_width video_height
      x y w h width height color = [] ∧
    gfx_display_draw_texture_slice p_disp data video_width video_height
      x y w h new_w new_h width height color offset scale_factor texture
      = [] := by
  rw [gfx_display_draw_quad, if_pos hdeg,
    gfx_display_draw_texture_slice, if_pos hdeg]
  exact ⟨rfl, rfl⟩

/-- C5 witness: a 0-wide rectangle on the bound test display dispatches
nothing from either primitive. -/
theorem C5_degenerate_geometry_skipped_witness :
    ((0 : Nat) = 0 ∨ (5 : Nat) = 0) ∧
    (gfx_display_draw_quad test_display 0 1920 1080
      10 10 0 5 1920 1080 [] = [] ∧
    gfx_display_draw_texture_slice test_display 0 1920 1080
      10 10 0 5 64 64 1920 1080 [] 8 1 3 = []) :=
  ⟨Or.inl rfl,
    C5_degenerate_geometry_skipped test_display 0 1920 1080 10 10 0 5
      1920 1080 [] 64 64 8 1 3 (Or.inl rfl)⟩

/-- C6: the DPI scale at 1920x1080 is exactly 1: the diagonal pixel
count sqrt(w^2 + h^2) divided by the canonical 1080p reference diagonal
(both interpreted exactly) is unity at the reference resolution. -/
theorem C6_dpi_scale_1080p_is_one :
    gfx_display_get_dpi_scale_internal 1920 1080 = 1 :=
  dpi_scale_internal_1920_1080

/-- C7 counterexample: with a negative caller-supplied scale factor the
adjusted scale is not monotonic in the base scale — base scales 0 <= 1
yield adjusted scales 0 > -1 on the test display (whose DPI scale is 1). -/
theorem C7_counterexample_negative_factor :
    (0 : ℝ) ≤ 1 ∧
    ¬ (gfx_display_get_adjusted_scale test_display 0 (-1) 1920 ≤
        gfx_display_get_adjusted_scale test_display 1 (-1) 1920) := by
  refine ⟨zero_le_one, ?_⟩
  rw [gfx_display_get_adjusted_scale, gfx_display_get_adjusted_scale]
  rw [show test_display.framebuf_width = 1920 from rfl,
    show test_display.framebuf_height = 1080 from rfl,
    dpi_scale_internal_1920_1080]
  norm_num

/-- C7 (amended): for every DisplayState, width and nonnegative
caller-supplied scale factor, the adjusted scale is monotonic in its
base-scale argument. -/
theorem C7_adjusted_scale_monotone_in_base
    (p_disp : gfx_display) (scale_factor : ℝ) (width : Nat) (b1 b2 : ℝ)
    (hf : 0 ≤ scale_factor) (hb : b1 ≤ b2) :
    gfx_display_get_adjusted_scale p_disp b1 scale_factor width ≤
      gfx_display_get_adjusted_scale p_disp b2 scale_factor width := by
  have hdpi : 0 ≤ gfx_display_get_dpi_scale_internal
      p_disp.framebuf_width p_disp.framebuf_height := by
    rw [gfx_display_get_dpi_scale_internal, DIAGONAL_PIXELS_1080P]
    exact div_nonneg (Real.sqrt_nonneg _) (Real.sqrt_nonneg _)
  rw [gfx_display_get_adjusted_scale, gfx_display_get_adjusted_scale]
  exact mul_le_mul_of_nonneg_right
    (mul_le_mul_of_nonneg_right hb hf) hdpi

/-- C7 witness: base scales 1 <= 2 with scale factor 1 on the test
display. -/
theorem C7_adjusted_scale_monotone_in_base_witness :
    (0 : ℝ) ≤ 1 ∧ (1 : ℝ) ≤ 2 ∧
    gfx_display_get_adjusted_scale test_display 1 1 1920 ≤
      gfx_display_get_adjusted_scale test_display 2 1 1920 :=
  ⟨zero_le_one, one_le_two,
    C7_adjusted_scale_monotone_in_base test_display 1 1920 1 2
      zero_le_one one_le_two⟩

/-- C8: rotate_z with rotation 0 and scale disabled writes the
identity-composed default transform — the bound driver's default MVP
multiplied by the identity rotation — into the matrix slot, for every
prior content of that slot. -/
theorem C8_rotate_z_zero_rotation_is_default
    (prior : Matrix (Fin 4) (Fin 4) ℝ) (sx sy sz : ℝ)
    (default_mvp : Matrix (Fin 4) (Fin 4) ℝ) :
    gfx_display_rotate_z
      { matrix := prior, rotation := 0, scale_x := sx, scale_y := sy,
        scale_z := sz, scale_enable := false } default_mvp = default_mvp := by
  rw [gfx_display_rotate_z]
  simp [matrix_4x4_rotate_z_zero]

/-- C10 witness: the theorem applied at color 0x12345678 and alpha 0x9A. -/
theorem C10_color_text_alpha_witness :
    (0x12345678 : ℕ) < 2 ^ 32 ∧ (0x9A : ℕ) ≤ 0xFF ∧
    (COLOR_TEXT_ALPHA 0x12345678 0x9A < 2 ^ 32 ∧
      COLOR_TEXT_ALPHA 0x12345678 0x9A / 2 ^ 8 = 0x12345678 / 2 ^ 8 ∧
      COLOR_TEXT_ALPHA 0x12345678 0x9A % 2 ^ 8 = 0x9A) :=
  ⟨by decide, by decide,
    C10_color_text_alpha 0x12345678 0x9A (by decide) (by decide)⟩

end GfxDisplay
